import Mathlib

/-!
Shallow embedding of the moodboard-ai mood-profile derivation engine and
playlist service (backend/app/services/mood_analyzer.py and
backend/app/services/jamendo_service.py), together with theorems settling
the specification claims about them.

Modelling conventions:
  - Python floats are modelled as rationals; threshold literals such as
    0.75, 0.40, 0.6 are taken at their decimal value.
  - Python dicts with string keys are modelled as association lists in
    insertion order; dict.get with a default is the helper pyGet.
  - External scorers, the linguistic parser and the network are inputs:
    a scorer result is an Option of a label-score list, a parse result is
    an Option of noun-chunk and adjective lists, and the catalog network
    is an oracle from attempt index to an optional parsed response.
  - A Python exception escaping a function is modelled by the function
    returning none; code that catches exceptions and falls back is
    modelled by branching to the fallback on the malformed shapes.
-/

set_option linter.unusedVariables false

namespace Moodboard

/-- Python str.lower, character by character. -/
def pyToLower (s : String) : String :=
  String.mk (s.toList.map Char.toLower)

/-- Python str.startswith. -/
def pyStartsWith (s pre : String) : Bool :=
  pre.toList.isPrefixOf s.toList

/-- Accumulator pass of pySplit: cur holds the characters of the current
token in reverse. -/
def pySplitAux : List Char → List Char → List String
  | [], cur => if cur.isEmpty then [] else [String.mk cur.reverse]
  | c :: cs, cur =>
    if c.isWhitespace then
      (if cur.isEmpty then [] else [String.mk cur.reverse]) ++ pySplitAux cs []
    else pySplitAux cs (c :: cur)

/-- Whitespace split as in Python str.split with no argument: split on runs
of whitespace, discarding empty fragments. -/
def pySplit (s : String) : List String :=
  pySplitAux s.toList []

/-- Dictionary lookup with default, as in Python dict.get(key, default),
over an association list in insertion order. -/
def pyGet {α : Type} (d : List (String × α)) (k : String) (dflt : α) : α :=
  match d.find? (fun p => p.1 == k) with
  | some p => p.2
  | none => dflt

/-- Python max over (key, score) pairs with key function snd: returns the
first pair whose score is maximal (max only replaces on strictly greater). -/
def pyMaxBySnd (x : String × ℚ) : List (String × ℚ) → String × ℚ
  | [] => x
  | y :: ys => pyMaxBySnd (if x.2 < y.2 then y else x) ys

/-- Python dict insertion: an existing key keeps its position and gets the
new value, a new key is appended. -/
def pyDictInsert (d : List (String × ℚ)) (kv : String × ℚ) : List (String × ℚ) :=
  if d.any (fun p => p.1 == kv.1) then
    d.map (fun p => if p.1 == kv.1 then (p.1, kv.2) else p)
  else d ++ [kv]

/-- Build a Python dict from a list of key-value pairs (later duplicates
overwrite earlier values in place). -/
def pyDictOfList (l : List (String × ℚ)) : List (String × ℚ) :=
  l.foldl pyDictInsert []

/-- Deduplication preserving the first occurrence of each element, as done
with a seen-set in jamendo_service. The first argument accumulates the
elements already seen. -/
def dedupFirstAux (seen : List String) : List String → List String
  | [] => []
  | t :: ts => if t ∈ seen then dedupFirstAux seen ts else t :: dedupFirstAux (t :: seen) ts

/-- Deduplicate a list keeping first occurrences. -/
def dedupFirst (l : List String) : List String := dedupFirstAux [] l

/-- Substring test: needle occurs contiguously in hay, as Python in on strings. -/
def containsSub (needle hay : String) : Bool :=
  decide (needle.toList <:+: hay.toList)

/-- Python str.capitalize: first character uppercased, the rest lowercased. -/
def pyCapitalize (s : String) : String :=
  match s.toList with
  | [] => ""
  | c :: cs => String.mk (c.toUpper :: cs.map Char.toLower)

/-- Python `a or b` on strings: b when a is empty, else a. -/
def pyOrStr (a b : String) : String := if a = "" then b else a

/-! MoodAnalyzer (backend/app/services/mood_analyzer.py) -/

/-- Intense-word list from MoodAnalyzer.heuristic_energy. -/
def intense_words : List String :=
  ["amazing", "awesome", "fantastic", "furious", "incredible",
   "hate", "love", "ecstatic", "angry", "thrilled", "so", "very",
   "extremely", "super", "totally", "completely"]

/-- MoodAnalyzer.heuristic_energy: lexical energy estimate. High when
there is more than one exclamation mark, or the uppercase ratio exceeds
0.2, or an intense word occurs as a substring of the lowercased text. -/
def heuristic_energy (text : String) : String :=
  let exclamations := text.toList.count '!'
  let capsFrac : ℚ := (text.toList.countP Char.isUpper : ℚ) / ((max text.length 1 : ℕ) : ℚ)
  let intenseMatch := intense_words.any (fun w => containsSub w (pyToLower text))
  if 1 < exclamations ∨ (0.2 : ℚ) < capsFrac ∨ intenseMatch = true then "high" else "low"

/-- Label normalization map in analyze_sentiment: sentiment_map.get(label, label). -/
def sentimentMapGet (label : String) : String :=
  pyGet [("LABEL_0", "negative"), ("LABEL_1", "neutral"), ("LABEL_2", "positive")] label label

/-- Result shape of analyze_sentiment. -/
structure SentimentResult where
  sentiment : String
  confidence : ℚ
  energy : String
  combined_label : String
  scores : List (String × ℚ)
  deriving DecidableEq, Repr

/-- Positive word list of _fallback_sentiment_analysis. -/
def positive_words : List String :=
  ["happy", "joy", "love", "excited", "great", "amazing",
   "wonderful", "good", "peaceful", "grateful"]

/-- Negative word list of _fallback_sentiment_analysis. -/
def negative_words : List String :=
  ["sad", "angry", "frustrated", "tired", "worried",
   "stressed", "bad", "awful", "terrible", "anxious"]

/-- Count of tokens that are in the positive word list. -/
def positiveCount (words : List String) : Nat :=
  words.countP (fun w => positive_words.contains w)

/-- Count of tokens that are in the negative word list. -/
def negativeCount (words : List String) : Nat :=
  words.countP (fun w => negative_words.contains w)

/-- Confidence formula of _fallback_sentiment_analysis:
max(0.6, min(0.95, (abs(pos - neg) + 1) / (len(words) / 10 + 1))). -/
def fallbackConfidence (words : List String) : ℚ :=
  max 0.6 (min 0.95
    ((|(positiveCount words : ℚ) - (negativeCount words : ℚ)| + 1) /
      ((words.length : ℚ) / 10 + 1)))

/-- MoodAnalyzer._fallback_sentiment_analysis. -/
def fallback_sentiment_analysis (text : String) : SentimentResult :=
  let words := pySplit (pyToLower text)
  let positive_count := positiveCount words
  let negative_count := negativeCount words
  let confidence := fallbackConfidence words
  let overall_sentiment :=
    if negative_count < positive_count then "positive"
    else if positive_count < negative_count then "negative"
    else "neutral"
  let energy := if 2 < positive_count + negative_count then "high" else "low"
  { sentiment := overall_sentiment, confidence := confidence, energy := energy,
    combined_label := overall_sentiment ++ "-" ++ energy,
    scores := [(overall_sentiment, confidence)] }

/-- Confidence-banded energy rule of analyze_sentiment lines 79 to 84:
high at confidence at least 0.75, low at confidence at most 0.40, and the
lexical heuristic in between. -/
def energyBand (confidence : ℚ) (text : String) : String :=
  if (0.75 : ℚ) ≤ confidence then "high"
  else if confidence ≤ (0.40 : ℚ) then "low"
  else heuristic_energy text

/-- Scores dict built in analyze_sentiment: labels normalized through
sentimentMapGet, assembled with Python dict semantics. -/
def scoresOf (results : List (String × ℚ)) : List (String × ℚ) :=
  pyDictOfList (results.map (fun r => (sentimentMapGet r.1, r.2)))

/-- Primary-path result assembly of analyze_sentiment from the scores
dict: dominant pair by Python max over the items, the banded energy, and
the combined label (an empty dict would raise in max and be caught,
reaching the fallback). -/
def analyzeFromScores (scores : List (String × ℚ)) (text : String) : SentimentResult :=
  match scores with
  | [] => fallback_sentiment_analysis text
  | s :: ss =>
    { sentiment := (pyMaxBySnd s ss).1,
      confidence := (pyMaxBySnd s ss).2,
      energy := energyBand (pyMaxBySnd s ss).2 text,
      combined_label := (pyMaxBySnd s ss).1 ++ "-" ++ energyBand (pyMaxBySnd s ss).2 text,
      scores := s :: ss }

/-- MoodAnalyzer.analyze_sentiment, parameterized by the model output
(none models an unavailable or failing scorer, and an empty result list
raises and is caught, both reaching the fallback). -/
def analyze_sentiment (results : Option (List (String × ℚ))) (text : String) : SentimentResult :=
  match results with
  | some (r :: rs) => analyzeFromScores (scoresOf (r :: rs)) text
  | _ => fallback_sentiment_analysis text

/-- Emotion keyword table of _fallback_emotion_analysis. -/
def emotion_keywords : List (String × List String) :=
  [("joy", ["happy", "excited", "joy", "love", "amazing", "wonderful"]),
   ("sadness", ["sad", "down", "depressed", "lonely", "hurt"]),
   ("anger", ["angry", "mad", "frustrated", "annoyed", "irritated"]),
   ("fear", ["scared", "worried", "anxious", "nervous", "afraid"]),
   ("surprise", ["surprised", "shocked", "amazed", "unexpected"]),
   ("disgust", ["disgusted", "sick", "revolting", "gross"])]

/-- Per-emotion score of _fallback_emotion_analysis:
min(match_count / max(word_count, 1) * 3, 1.0). -/
def emotionScore (words : List String) (kws : List String) : ℚ :=
  min (((words.countP (fun w => kws.contains w) : ℚ) / ((max words.length 1 : ℕ) : ℚ)) * 3) 1

/-- The six fixed emotion scores computed before the neutral injection. -/
def baseEmotions (text : String) : List (String × ℚ) :=
  let words := pySplit (pyToLower text)
  emotion_keywords.map (fun ek => (ek.1, emotionScore words ek.2))

/-- MoodAnalyzer._fallback_emotion_analysis: the six keyword scores, with
neutral set to 0.8 when every score is below 0.1. -/
def fallback_emotion_analysis (text : String) : List (String × ℚ) :=
  if (baseEmotions text).all (fun p => decide (p.2 < (0.1 : ℚ))) then
    baseEmotions text ++ [("neutral", 0.8)]
  else baseEmotions text

/-- Emotion word list of the extract_keywords fallback. -/
def emotion_words : List String :=
  ["happy", "sad", "angry", "excited", "worried", "calm", "stressed", "peaceful"]

/-- Primary-path keywords of extract_keywords: the first 5 lowercased noun
chunks followed by the first 3 lowercased adjectives; empty when the parser
is unavailable or failed. -/
def primaryKeywords (parse : Option (List String × List String)) : List String :=
  match parse with
  | some cj => (cj.1.map pyToLower).take 5 ++ (cj.2.map pyToLower).take 3
  | none => []

/-- MoodAnalyzer.extract_keywords, parameterized by the parse result
(noun-chunk texts and adjective texts); the lexical fallback runs whenever
the primary path produced no keywords. -/
def extract_keywords (parse : Option (List String × List String)) (text : String) : List String :=
  let keywords := primaryKeywords parse
  if keywords.isEmpty then
    ((pySplit (pyToLower text)).filter (fun w => emotion_words.contains w)).take 5
  else keywords

/-- Color palette table of analyze_full_mood. -/
def palettes : List (String × List (String × List String)) :=
  [("positive", [("high", ["#FF6B6B", "#FFE66D", "#FF8E53", "#FF6B9D", "#4ECDC4"]),
                 ("low", ["#A8E6CF", "#88D8C0", "#FFEAA7", "#FD79A8", "#FDCB6E"])]),
   ("negative", [("high", ["#636E72", "#2D3436", "#E17055", "#A29BFE", "#6C5CE7"]),
                 ("low", ["#74B9FF", "#0984E3", "#A29BFE", "#DDA0DD", "#81ECEC"])]),
   ("neutral", [("high", ["#FDCB6E", "#E17055", "#00B894", "#00CEC9", "#A29BFE"]),
                ("low", ["#DDDDDD", "#AAAAAA", "#888888", "#666666", "#444444"])])]

/-- Palette selection expression of analyze_full_mood line 164:
palettes.get(sentiment, palettes["neutral"]).get(energy, palettes["neutral"]["low"]). -/
def select_color_palette (sentiment energy : String) : List String :=
  let neutralRow := pyGet palettes "neutral" []
  pyGet (pyGet palettes sentiment neutralRow) energy (pyGet neutralRow "low" [])

/-! JamendoService (backend/app/services/jamendo_service.py) -/

/-- Mood-to-music tag table JamendoService.MOOD_TAG_MAP. -/
def MOOD_TAG_MAP : List (String × List String) :=
  [("positive-high", ["happy", "energetic", "pop", "upbeat", "dance"]),
   ("positive-low", ["calm", "peaceful", "acoustic", "soft", "chill"]),
   ("negative-high", ["rock", "intense", "alternative", "pop", "energetic"]),
   ("negative-low", ["sad", "slow", "acoustic", "emotional", "calm"]),
   ("neutral-high", ["electronic", "instrumental", "pop", "upbeat"]),
   ("neutral-low", ["chill", "ambient", "instrumental", "lounge"]),
   ("joy", ["happy", "pop", "upbeat"]),
   ("sadness", ["sad", "emotional", "slow", "acoustic"]),
   ("anger", ["rock", "metal", "intense"]),
   ("fear", ["ambient", "electronic", "dark"]),
   ("surprise", ["pop", "electronic", "upbeat"]),
   ("disgust", ["rock", "alternative", "metal"])]

/-- Color-vibe genre table JamendoService.COLOR_INTENSITY_GENRES. -/
def COLOR_INTENSITY_GENRES : List (String × List String) :=
  [("vibrant", ["pop", "dance", "electronic", "edm"]),
   ("pastel", ["indie", "folk", "acoustic", "singer-songwriter"]),
   ("dark", ["alternative", "rock", "gothic", "darkwave"]),
   ("warm", ["jazz", "soul", "r&b", "blues"]),
   ("cool", ["ambient", "chillwave", "synthwave", "electronic"])]

/-- Value of a single hexadecimal digit character. -/
def hexDigitVal (c : Char) : Option Nat :=
  if c.isDigit then some (c.toNat - 48)
  else if 97 ≤ c.toNat ∧ c.toNat ≤ 102 then some (c.toNat - 87)
  else if 65 ≤ c.toNat ∧ c.toNat ≤ 70 then some (c.toNat - 55)
  else none

/-- Python int(s, 16) on a plain digit string: none models the ValueError
raised on an empty or non-hexadecimal string. -/
def hexVal (s : String) : Option Nat :=
  match s.toList with
  | [] => none
  | cs => cs.foldl (fun acc c => acc.bind (fun a => (hexDigitVal c).map (fun d => a * 16 + d))) (some 0)

/-- Python string slice s[a:b] (clamping, ascending indices). -/
def pySlice (s : String) (a b : Nat) : String :=
  String.mk ((s.toList.drop a).take (b - a))

/-- Bright hex digit pairs checked by _analyze_color_palette. -/
def vibrantHexPairs : List String := ["ff", "ee", "dd"]

/-- Vibrancy test of _analyze_color_palette: some bright pair occurs as a
substring of the lowercased color string. -/
def isVibrantColor (c : String) : Bool :=
  vibrantHexPairs.any (fun x => containsSub x (pyToLower c))

/-- A color on which the dark-count expression int(c[1:3], 16) raises. -/
def badHexColor (c : String) : Bool :=
  pyStartsWith c "#" && (hexVal (pySlice c 1 3)).isNone

/-- JamendoService._analyze_color_palette. The threshold literals 0.6, 0.3
and 0.5 are taken at their decimal value; none models the ValueError that
the dark-count computation raises on a color starting with the hash sign
whose next two characters are not hexadecimal digits. -/
def analyze_color_palette (colors : List String) : Option String :=
  if colors.isEmpty then some "neutral"
  else
    let n : ℚ := colors.length
    let vibrant_count : ℚ := colors.countP isVibrantColor
    if n * 0.6 < vibrant_count then some "vibrant"
    else if vibrant_count < n * 0.3 then some "pastel"
    else if colors.any badHexColor then none
    else
      let dark_count : ℚ :=
        colors.countP (fun c => pyStartsWith c "#" && decide ((hexVal (pySlice c 1 3)).getD 0 < 100))
      if n * 0.5 < dark_count then some "dark" else some "neutral"

/-- The mood_analysis dict consumed by JamendoService, with Option fields
modelling keys that may be absent (dict.get with a default in the code). -/
structure MoodAnalysis where
  sentiment : Option String
  energy_level : Option String
  emotions : Option (List (String × ℚ))
  color_palette : Option (List String)
  deriving DecidableEq, Repr

/-- Base tag segment of _get_tags_from_mood: lookup of the
sentiment-energy key with default ["chill"]. -/
def baseSegment (m : MoodAnalysis) : List String :=
  pyGet MOOD_TAG_MAP ((m.sentiment.getD "neutral") ++ "-" ++ (m.energy_level.getD "low")) ["chill"]

/-- Dominant-emotion tag segment of _get_tags_from_mood: empty when the
emotions mapping is empty, else the tags of the first maximal emotion. -/
def emotionSegment (m : MoodAnalysis) : List String :=
  match m.emotions.getD [] with
  | [] => []
  | e :: es => pyGet MOOD_TAG_MAP (pyMaxBySnd e es).1 []

/-- Genre tags for a color vibe (nothing for a vibe outside the table). -/
def genreSegment (vibe : String) : List String :=
  pyGet COLOR_INTENSITY_GENRES vibe []

/-- JamendoService._get_tags_from_mood: base, emotion and genre segments
concatenated, deduplicated keeping first occurrences, truncated to 5.
The none case propagates the color-analysis ValueError. -/
def get_tags_from_mood (m : MoodAnalysis) : Option (List String) :=
  (analyze_color_palette (m.color_palette.getD [])).map (fun vibe =>
    (dedupFirst (baseSegment m ++ emotionSegment m ++ genreSegment vibe)).take 5)

/-- Capitalized dominant emotion of _generate_playlist_name, empty string
when the emotions mapping is empty. -/
def dominantEmotionCap (emotions : List (String × ℚ)) : String :=
  match emotions with
  | [] => ""
  | e :: es => pyCapitalize (pyMaxBySnd e es).1

/-- Name-template selection of _generate_playlist_name as a function of
the dominant-emotion string: the first template of the row keyed by the
sentiment-energy combination, with the default fill word when the
dominant-emotion string is empty. -/
def playlistNameFor (m : MoodAnalysis) (dominant_emotion : String) : String :=
  let sentiment := pyCapitalize (m.sentiment.getD "neutral")
  let energy := pyCapitalize (m.energy_level.getD "low")
  let mood_key := (m.sentiment.getD "neutral") ++ "-" ++ (m.energy_level.getD "low")
  if mood_key = "positive-high" then "Energized & " ++ pyOrStr dominant_emotion "Joyful"
  else if mood_key = "positive-low" then "Peaceful " ++ pyOrStr dominant_emotion "Calm"
  else if mood_key = "negative-high" then "Intense " ++ pyOrStr dominant_emotion "Power"
  else if mood_key = "negative-low" then "Reflective " ++ pyOrStr dominant_emotion "Melancholy"
  else if mood_key = "neutral-high" then "Focused Flow"
  else if mood_key = "neutral-low" then "Chill Zone"
  else sentiment ++ " " ++ energy ++ " Mix"

/-- JamendoService._generate_playlist_name. -/
def generate_playlist_name (m : MoodAnalysis) : String :=
  playlistNameFor m (dominantEmotionCap (m.emotions.getD []))

/-- Raw track fields read from the catalog response (dict.get, so every
field may be absent). -/
structure RawTrack where
  id : Option String
  name : Option String
  artist_name : Option String
  album_name : Option String
  duration : Option String
  audio : Option String
  image : Option String
  license_ccurl : Option String
  deriving DecidableEq, Repr

/-- Track shape formatted for the frontend in get_mood_playlist. -/
structure Track where
  id : Option String
  name : Option String
  artist : Option String
  album : Option String
  duration : Option String
  audio_url : Option String
  image_url : Option String
  jamendo_url : String
  license : Option String
  deriving DecidableEq, Repr

/-- Parsed catalog response: the results key may be absent. -/
structure JData where
  results : Option (List RawTrack)
  deriving DecidableEq, Repr

/-- Python str() of an optional value inside an f-string: None prints as
the four-letter word None. -/
def pyStrOpt : Option String → String
  | some s => s
  | none => "None"

/-- Track formatting loop body of get_mood_playlist. -/
def format_track (t : RawTrack) : Track :=
  { id := t.id, name := t.name, artist := t.artist_name, album := t.album_name,
    duration := t.duration, audio_url := t.audio, image_url := t.image,
    jamendo_url := "https://www.jamendo.com/track/" ++ pyStrOpt t.id,
    license := t.license_ccurl }

/-- Result dict of get_mood_playlist. Option fields model keys that are
present only in some return shapes. -/
structure PlaylistResult where
  error : Option String
  playlist_name : String
  mood_tags : Option (List String)
  total_tracks : Option Nat
  tracks : List Track
  sentiment : Option String
  energy : Option String
  deriving DecidableEq, Repr

/-- Loop-break condition of the search loop:
data and "results" in data and data["results"] is truthy. -/
def isHit (d : Option JData) : Bool :=
  match d with
  | some j =>
    match j.results with
    | some rs => !rs.isEmpty
    | none => false
  | none => false

/-- The four-attempt relaxation loop of get_mood_playlist. The oracle
gives the parsed response of the i-th request (attempt 0 uses the first 3
mapped tags, attempt 1 the first 2, attempt 2 the first 1, attempt 3 the
tag instrumental); returns the data variable left by the loop and the
number of requests performed. -/
def trySearch (oracle : Nat → Option JData) : Option JData × Nat :=
  if isHit (oracle 0) then (oracle 0, 1)
  else if isHit (oracle 1) then (oracle 1, 2)
  else if isHit (oracle 2) then (oracle 2, 3)
  else (oracle 3, 4)

/-- Early-return shape of get_mood_playlist when no client id is set. -/
def noClientResult : PlaylistResult :=
  { error := some "Jamendo API not configured", playlist_name := "Mood Playlist",
    mood_tags := none, total_tracks := none, tracks := [], sentiment := none, energy := none }

/-- Error shape of get_mood_playlist when the final data is missing or has
no results key. -/
def fetchFailedResult (m : MoodAnalysis) : PlaylistResult :=
  { error := some "Failed to fetch tracks", playlist_name := generate_playlist_name m,
    mood_tags := none, total_tracks := none, tracks := [], sentiment := none, energy := none }

/-- Success shape of get_mood_playlist. -/
def successResult (m : MoodAnalysis) (tags : List String) (rs : List RawTrack) : PlaylistResult :=
  let tracks := rs.map format_track
  { error := none, playlist_name := generate_playlist_name m, mood_tags := some tags,
    total_tracks := some tracks.length, tracks := tracks,
    sentiment := m.sentiment, energy := m.energy_level }

/-- JamendoService.get_mood_playlist, parameterized by the configured
client id and the network oracle. The pair carries the returned dict and
the number of requests performed; none models the ValueError escaping from
the tag-mapping step. -/
def get_mood_playlist (client_id : String) (oracle : Nat → Option JData)
    (m : MoodAnalysis) (limit : Nat) : Option (PlaylistResult × Nat) :=
  if client_id = "" then some (noClientResult, 0)
  else
    match get_tags_from_mood m with
    | none => none
    | some tags =>
      match trySearch oracle with
      | (none, n) => some (fetchFailedResult m, n)
      | (some j, n) =>
        match j.results with
        | none => some (fetchFailedResult m, n)
        | some rs => some (successResult m tags rs, n)

/-! Helper lemmas -/

lemma pyDictInsert_ne_nil (d : List (String × ℚ)) (kv : String × ℚ) :
    pyDictInsert d kv ≠ [] := by
  unfold pyDictInsert
  cases d with
  | nil => simp
  | cons p ps => split <;> simp

lemma foldl_pyDictInsert_ne_nil (l : List (String × ℚ)) (acc : List (String × ℚ))
    (h : acc ≠ []) : l.foldl pyDictInsert acc ≠ [] := by
  induction l generalizing acc with
  | nil => simpa using h
  | cons x xs ih => exact ih (pyDictInsert acc x) (pyDictInsert_ne_nil acc x)

lemma scoresOf_ne_nil (r : String × ℚ) (rs : List (String × ℚ)) :
    scoresOf (r :: rs) ≠ [] := by
  unfold scoresOf pyDictOfList
  rw [List.map_cons, List.foldl_cons]
  exact foldl_pyDictInsert_ne_nil _ _ (pyDictInsert_ne_nil [] _)

lemma energyBand_cases (c : ℚ) (text : String) :
    ((0.75 : ℚ) ≤ c → energyBand c text = "high") ∧
    (c ≤ (0.40 : ℚ) → energyBand c text = "low") ∧
    ((0.40 : ℚ) < c → c < (0.75 : ℚ) → energyBand c text = heuristic_energy text) := by
  unfold energyBand
  refine ⟨fun h => ?_, fun h => ?_, fun h1 h2 => ?_⟩
  · rw [if_pos h]
  · rw [if_neg (by linarith), if_pos h]
  · rw [if_neg (by linarith), if_neg (by linarith)]

lemma emotionScore_no_match (words kws : List String)
    (h : words.countP (fun w => kws.contains w) = 0) : emotionScore words kws = 0 := by
  unfold emotionScore
  rw [h]
  norm_num

lemma emotionScore_bounds (words kws : List String) :
    0 ≤ emotionScore words kws ∧ emotionScore words kws ≤ 1 := by
  unfold emotionScore
  refine ⟨le_min ?_ (by norm_num), min_le_right _ _⟩
  exact mul_nonneg (div_nonneg (Nat.cast_nonneg _) (Nat.cast_nonneg _)) (by norm_num)

lemma mem_dedupFirstAux_not_seen (l : List String) :
    ∀ seen : List String, ∀ x ∈ dedupFirstAux seen l, x ∉ seen := by
  induction l with
  | nil => intro seen x hx; simp [dedupFirstAux] at hx
  | cons t ts ih =>
    intro seen x hx
    unfold dedupFirstAux at hx
    split at hx
    · exact ih seen x hx
    · rcases List.mem_cons.mp hx with rfl | hx2
      · assumption
      · intro hxs
        exact ih (t :: seen) x hx2 (List.mem_cons_of_mem t hxs)

lemma dedupFirstAux_nodup (l : List String) :
    ∀ seen : List String, (dedupFirstAux seen l).Nodup := by
  induction l with
  | nil => intro seen; simp [dedupFirstAux]
  | cons t ts ih =>
    intro seen
    unfold dedupFirstAux
    split
    · exact ih seen
    · refine List.nodup_cons.mpr ⟨?_, ih (t :: seen)⟩
      intro hmem
      exact mem_dedupFirstAux_not_seen ts (t :: seen) t hmem (List.mem_cons_self t seen)

lemma dedupFirst_nodup (l : List String) : (dedupFirst l).Nodup :=
  dedupFirstAux_nodup l []

lemma mood_tag_map_vals_ne_nil : ∀ p ∈ MOOD_TAG_MAP, p.2 ≠ [] := by decide

lemma baseSegment_ne_nil (m : MoodAnalysis) : baseSegment m ≠ [] := by
  unfold baseSegment pyGet
  cases hf : MOOD_TAG_MAP.find?
      (fun p => p.1 == (m.sentiment.getD "neutral") ++ "-" ++ (m.energy_level.getD "low")) with
  | none => simp
  | some p =>
    simpa using mood_tag_map_vals_ne_nil p (List.mem_of_find?_eq_some hf)

lemma pyGet_high_low_miss (v1 v2 : List String) (e : String) (dflt : List String)
    (he1 : e ≠ "high") (he2 : e ≠ "low") :
    pyGet [("high", v1), ("low", v2)] e dflt = dflt := by
  have h1 : (("high" : String) == e) = false := beq_eq_false_iff_ne.mpr (Ne.symm he1)
  have h2 : (("low" : String) == e) = false := beq_eq_false_iff_ne.mpr (Ne.symm he2)
  simp [pyGet, List.find?, h1, h2]

lemma palettes_miss (s : String) (dflt : List (String × List String))
    (h1 : s ≠ "positive") (h2 : s ≠ "negative") (h3 : s ≠ "neutral") :
    pyGet palettes s dflt = dflt := by
  have b1 : (("positive" : String) == s) = false := beq_eq_false_iff_ne.mpr (Ne.symm h1)
  have b2 : (("negative" : String) == s) = false := beq_eq_false_iff_ne.mpr (Ne.symm h2)
  have b3 : (("neutral" : String) == s) = false := beq_eq_false_iff_ne.mpr (Ne.symm h3)
  simp [pyGet, palettes, List.find?, b1, b2, b3]

lemma row_positive :
    pyGet palettes "positive" (pyGet palettes "neutral" []) =
      [("high", ["#FF6B6B", "#FFE66D", "#FF8E53", "#FF6B9D", "#4ECDC4"]),
       ("low", ["#A8E6CF", "#88D8C0", "#FFEAA7", "#FD79A8", "#FDCB6E"])] := by decide

lemma row_negative :
    pyGet palettes "negative" (pyGet palettes "neutral" []) =
      [("high", ["#636E72", "#2D3436", "#E17055", "#A29BFE", "#6C5CE7"]),
       ("low", ["#74B9FF", "#0984E3", "#A29BFE", "#DDA0DD", "#81ECEC"])] := by decide

lemma row_neutral :
    pyGet palettes "neutral" (pyGet palettes "neutral" []) =
      [("high", ["#FDCB6E", "#E17055", "#00B894", "#00CEC9", "#A29BFE"]),
       ("low", ["#DDDDDD", "#AAAAAA", "#888888", "#666666", "#444444"])] := by decide

lemma neutral_row_val :
    pyGet palettes "neutral" ([] : List (String × List String)) =
      [("high", ["#FDCB6E", "#E17055", "#00B894", "#00CEC9", "#A29BFE"]),
       ("low", ["#DDDDDD", "#AAAAAA", "#888888", "#666666", "#444444"])] := by decide

lemma neutral_low_val :
    pyGet (pyGet palettes "neutral" []) "low" ([] : List String) =
      ["#DDDDDD", "#AAAAAA", "#888888", "#666666", "#444444"] := by decide

/-! Claim theorems -/

/-- C1: on the primary path of the sentiment adapter (nonempty model
output), the returned energy is high when the dominant confidence is at
least 0.75, low when it is at most 0.40, and the Energy Estimator result
on the raw text when it is strictly between the two thresholds. -/
theorem sentiment_energy_banding (results : List (String × ℚ)) (text : String)
    (h : results ≠ []) :
    ((0.75 : ℚ) ≤ (analyze_sentiment (some results) text).confidence →
      (analyze_sentiment (some results) text).energy = "high") ∧
    ((analyze_sentiment (some results) text).confidence ≤ (0.40 : ℚ) →
      (analyze_sentiment (some results) text).energy = "low") ∧
    ((0.40 : ℚ) < (analyze_sentiment (some results) text).confidence →
      (analyze_sentiment (some results) text).confidence < (0.75 : ℚ) →
      (analyze_sentiment (some results) text).energy = heuristic_energy text) := by
  obtain ⟨p, ps, rfl⟩ := List.exists_cons_of_ne_nil h
  obtain ⟨s, ss, hs⟩ : ∃ s ss, scoresOf (p :: ps) = s :: ss := by
    rcases hsc : scoresOf (p :: ps) with _ | ⟨s, ss⟩
    · exact absurd hsc (scoresOf_ne_nil p ps)
    · exact ⟨s, ss, rfl⟩
  have hr : analyze_sentiment (some (p :: ps)) text = analyzeFromScores (s :: ss) text := by
    show analyzeFromScores (scoresOf (p :: ps)) text = _
    rw [hs]
  rw [hr]
  exact energyBand_cases (pyMaxBySnd s ss).2 text

/-- Witness for C1 at a concrete model output of confidence 0.9. -/
theorem sentiment_energy_banding_witness :
    (analyze_sentiment (some [("LABEL_2", (0.9 : ℚ))]) "ok").energy = "high" := by
  have hconf : (analyze_sentiment (some [("LABEL_2", (0.9 : ℚ))]) "ok").confidence = 0.9 := by
    simp [analyze_sentiment, analyzeFromScores, scoresOf, pyDictOfList, pyDictInsert,
      sentimentMapGet, pyGet, pyMaxBySnd]
  exact (sentiment_energy_banding [("LABEL_2", (0.9 : ℚ))] "ok"
    (List.cons_ne_nil _ _)).1 (by rw [hconf]; norm_num)

/-- C2 counterexample: for the known sentiment positive and the unknown
energy medium, the selected palette is the neutral low palette, not the
positive low palette, contradicting the claim. -/
theorem palette_unknown_energy_counterexample :
    select_color_palette "positive" "medium" =
      ["#DDDDDD", "#AAAAAA", "#888888", "#666666", "#444444"] ∧
    select_color_palette "positive" "low" =
      ["#A8E6CF", "#88D8C0", "#FFEAA7", "#FD79A8", "#FDCB6E"] ∧
    select_color_palette "positive" "medium" ≠ select_color_palette "positive" "low" := by
  decide

/-- C2 amended: for every sentiment, an energy value outside high and low
selects the neutral low palette; and every unknown sentiment uses the
neutral row (keyed by energy, with the neutral low palette as default). -/
theorem palette_fallback_amended (s e : String) :
    (e ≠ "high" → e ≠ "low" →
      select_color_palette s e = ["#DDDDDD", "#AAAAAA", "#888888", "#666666", "#444444"]) ∧
    (s ≠ "positive" → s ≠ "negative" → s ≠ "neutral" →
      select_color_palette s e =
        pyGet (pyGet palettes "neutral" []) e (pyGet (pyGet palettes "neutral" []) "low" [])) := by
  constructor
  · intro he1 he2
    show pyGet (pyGet palettes s (pyGet palettes "neutral" [])) e
        (pyGet (pyGet palettes "neutral" []) "low" []) = _
    by_cases h1 : s = "positive"
    · subst h1
      rw [row_positive, pyGet_high_low_miss _ _ e _ he1 he2, neutral_low_val]
    · by_cases h2 : s = "negative"
      · subst h2
        rw [row_negative, pyGet_high_low_miss _ _ e _ he1 he2, neutral_low_val]
      · by_cases h3 : s = "neutral"
        · subst h3
          rw [row_neutral, pyGet_high_low_miss _ _ e _ he1 he2, neutral_low_val]
        · rw [palettes_miss s _ h1 h2 h3, neutral_row_val,
            pyGet_high_low_miss _ _ e _ he1 he2]
          decide
  · intro h1 h2 h3
    show pyGet (pyGet palettes s (pyGet palettes "neutral" [])) e
        (pyGet (pyGet palettes "neutral" []) "low" []) = _
    rw [palettes_miss s _ h1 h2 h3]

/-- Witness for C2 amended at the unknown energy medium and the unknown
sentiment angry. -/
theorem palette_fallback_amended_witness :
    select_color_palette "positive" "medium" =
      ["#DDDDDD", "#AAAAAA", "#888888", "#666666", "#444444"] ∧
    select_color_palette "angry" "high" =
      pyGet (pyGet palettes "neutral" []) "high" (pyGet (pyGet palettes "neutral" []) "low" []) :=
  ⟨(palette_fallback_amended "positive" "medium").1 (by decide) (by decide),
   (palette_fallback_amended "angry" "high").2 (by decide) (by decide) (by decide)⟩

/-- C4 counterexample: on the primary path with 5 noun chunks and 3
adjectives the keyword extractor returns 8 strings, contradicting the
claimed bound of 5. -/
theorem extract_keywords_counterexample :
    ¬ (extract_keywords (some (["a", "b", "c", "d", "e"], ["f", "g", "h"])) "x").length ≤ 5 := by
  decide

/-- C4 amended: the keyword extractor returns at most 8 strings (up to 5
lowercased noun chunks followed by up to 3 lowercased adjectives), and at
most 5 strings whenever the primary path yields no keywords (in
particular on the lexical fallback path). -/
theorem extract_keywords_length_amended
    (parse : Option (List String × List String)) (text : String) :
    (extract_keywords parse text).length ≤ 8 ∧
    (primaryKeywords parse = [] → (extract_keywords parse text).length ≤ 5) := by
  constructor
  · unfold extract_keywords
    by_cases h : (primaryKeywords parse).isEmpty = true
    · rw [if_pos h]
      have := List.length_take_le 5
        ((pySplit (pyToLower text)).filter (fun w => emotion_words.contains w))
      omega
    · rw [if_neg h]
      cases parse with
      | none => simp [primaryKeywords]
      | some cj =>
        simp only [primaryKeywords, List.length_append]
        have h1 := List.length_take_le 5 (cj.1.map pyToLower)
        have h2 := List.length_take_le 3 (cj.2.map pyToLower)
        omega
  · intro h0
    unfold extract_keywords
    rw [if_pos (by rw [h0]; rfl)]
    exact List.length_take_le 5 _

/-- Witness for C4 amended on the fallback path. -/
theorem extract_keywords_length_amended_witness :
    (extract_keywords none "happy day").length ≤ 8 ∧
    (extract_keywords none "happy day").length ≤ 5 :=
  ⟨(extract_keywords_length_amended none "happy day").1,
   (extract_keywords_length_amended none "happy day").2 rfl⟩

/-- C6: the fallback sentiment confidence equals the clamp of
(abs(positive - negative) + 1) / (word_count / 10 + 1) to the interval
from 0.6 to 0.95, hence always lies in that interval. -/
theorem fallback_confidence_in_range (text : String) :
    (fallback_sentiment_analysis text).confidence = fallbackConfidence (pySplit (pyToLower text)) ∧
    (0.6 : ℚ) ≤ (fallback_sentiment_analysis text).confidence ∧
    (fallback_sentiment_analysis text).confidence ≤ 0.95 := by
  have h : (fallback_sentiment_analysis text).confidence
      = fallbackConfidence (pySplit (pyToLower text)) := rfl
  refine ⟨h, ?_, ?_⟩
  · rw [h]
    unfold fallbackConfidence
    exact le_max_left _ _
  · rw [h]
    unfold fallbackConfidence
    exact max_le (by norm_num) (min_le_left _ _)

/-- C7: with an empty client id the playlist fetch returns the
configuration error shape (non-empty error, empty track list) and
performs zero network requests. -/
theorem playlist_requires_credential (oracle : Nat → Option JData)
    (m : MoodAnalysis) (limit : Nat) :
    get_mood_playlist "" oracle m limit = some (noClientResult, 0) ∧
    noClientResult.error = some "Jamendo API not configured" ∧
    "Jamendo API not configured" ≠ "" ∧
    noClientResult.tracks = [] := by
  refine ⟨?_, rfl, by decide, rfl⟩
  unfold get_mood_playlist
  rw [if_pos rfl]

/-- C5: whenever the Playlist Tag Mapper returns (its concatenation of
base, emotion and color-vibe tags deduplicated keeping first occurrences
and truncated to 5), the result has length at most 5 and no duplicates. -/
theorem mood_tags_bounded_nodup (m : MoodAnalysis) (tags : List String)
    (h : get_tags_from_mood m = some tags) :
    tags.length ≤ 5 ∧ tags.Nodup := by
  unfold get_tags_from_mood at h
  rw [Option.map_eq_some'] at h
  obtain ⟨vibe, hv, htags⟩ := h
  subst htags
  constructor
  · exact List.length_take_le 5 _
  · exact (List.take_sublist 5 _).nodup (dedupFirst_nodup _)

/-- Witness for C5 at the all-defaults mood analysis dict. -/
theorem mood_tags_bounded_nodup_witness :
    get_tags_from_mood (MoodAnalysis.mk none none none none) =
      some ["chill", "ambient", "instrumental", "lounge"] ∧
    (["chill", "ambient", "instrumental", "lounge"] : List String).length ≤ 5 ∧
    (["chill", "ambient", "instrumental", "lounge"] : List String).Nodup :=
  ⟨by decide, mood_tags_bounded_nodup (MoodAnalysis.mk none none none none) _ (by decide)⟩

/-- C8: the fallback emotion analysis contains, for each of the six fixed
emotions, the score min(match_count / max(word_count, 1) * 3, 1); every
returned score lies in the unit interval; and when all six computed scores
are below 0.1 the returned mapping contains the entry neutral 0.8. -/
theorem fallback_emotion_scores (text : String) :
    (∀ ek ∈ emotion_keywords,
        (ek.1, emotionScore (pySplit (pyToLower text)) ek.2) ∈ fallback_emotion_analysis text) ∧
    (∀ p ∈ fallback_emotion_analysis text, 0 ≤ p.2 ∧ p.2 ≤ 1) ∧
    ((∀ p ∈ baseEmotions text, p.2 < (0.1 : ℚ)) →
        ("neutral", (0.8 : ℚ)) ∈ fallback_emotion_analysis text) := by
  have hbase : ∀ p ∈ baseEmotions text, 0 ≤ p.2 ∧ p.2 ≤ 1 := by
    intro p hp
    simp only [baseEmotions, List.mem_map] at hp
    obtain ⟨ek, hek, rfl⟩ := hp
    exact emotionScore_bounds _ _
  refine ⟨?_, ?_, ?_⟩
  · intro ek hek
    have hmem : (ek.1, emotionScore (pySplit (pyToLower text)) ek.2) ∈ baseEmotions text := by
      simp only [baseEmotions, List.mem_map]
      exact ⟨ek, hek, rfl⟩
    unfold fallback_emotion_analysis
    split
    · exact List.mem_append_left _ hmem
    · exact hmem
  · intro p hp
    unfold fallback_emotion_analysis at hp
    split at hp
    · rcases List.mem_append.mp hp with hmem | hmem
      · exact hbase p hmem
      · rw [List.mem_singleton.mp hmem]
        norm_num
    · exact hbase p hp
  · intro hall
    unfold fallback_emotion_analysis
    rw [if_pos ?side]
    case side =>
      rw [List.all_eq_true]
      intro p hp
      exact decide_eq_true (hall p hp)
    exact List.mem_append_right _ (List.mem_singleton.mpr rfl)

/-- Witness for C8 at a zero-signal text. -/
theorem fallback_emotion_scores_witness :
    ("joy", emotionScore (pySplit (pyToLower "zzz")) ["happy", "excited", "joy", "love",
      "amazing", "wonderful"]) ∈ fallback_emotion_analysis "zzz" ∧
    (∀ p ∈ fallback_emotion_analysis "zzz", 0 ≤ p.2 ∧ p.2 ≤ 1) ∧
    ("neutral", (0.8 : ℚ)) ∈ fallback_emotion_analysis "zzz" := by
  have hall : ∀ p ∈ baseEmotions "zzz", p.2 < (0.1 : ℚ) := by
    intro p hp
    simp only [baseEmotions, List.mem_map] at hp
    obtain ⟨ek, hek, rfl⟩ := hp
    show emotionScore (pySplit (pyToLower "zzz")) ek.2 < (0.1 : ℚ)
    have hz : (pySplit (pyToLower "zzz")).countP (fun w => ek.2.contains w) = 0 := by
      fin_cases hek <;> rfl
    rw [emotionScore_no_match _ _ hz]
    norm_num
  exact ⟨(fallback_emotion_scores "zzz").1
      ("joy", ["happy", "excited", "joy", "love", "amazing", "wonderful"]) (by decide),
    (fallback_emotion_scores "zzz").2.1,
    (fallback_emotion_scores "zzz").2.2 hall⟩

/-- C9: the Playlist Tag Mapper never returns an empty tag list, because
the base lookup defaults to the singleton chill and the first base tag
survives deduplication and truncation. -/
theorem mood_tags_nonempty (m : MoodAnalysis) (tags : List String)
    (h : get_tags_from_mood m = some tags) : tags ≠ [] := by
  unfold get_tags_from_mood at h
  rw [Option.map_eq_some'] at h
  obtain ⟨vibe, hv, htags⟩ := h
  obtain ⟨b, bs, hb⟩ := List.exists_cons_of_ne_nil (baseSegment_ne_nil m)
  subst htags
  rw [hb]
  simp [dedupFirst, dedupFirstAux]

/-- Witness for C9 at a mood analysis dict with an unknown
sentiment-energy key, empty emotions and empty palette. -/
theorem mood_tags_nonempty_witness :
    get_tags_from_mood (MoodAnalysis.mk (some "angry") (some "medium") (some []) (some [])) =
      some ["chill"] ∧
    (["chill"] : List String) ≠ [] :=
  ⟨by decide,
   mood_tags_nonempty (MoodAnalysis.mk (some "angry") (some "medium") (some []) (some []))
     _ (by decide)⟩

/-- C10: with an empty emotions mapping the dominant-emotion computation
is skipped in both the tag mapper and the name generator: the emotion tag
segment is empty, the mapped tags are exactly those computed from the base
and color segments alone, the dominant-emotion string is empty, and the
playlist name is the template filled with its non-emotion default. -/
theorem empty_emotions_guard (m : MoodAnalysis) (h : m.emotions.getD [] = []) :
    emotionSegment m = [] ∧
    get_tags_from_mood m =
      (analyze_color_palette (m.color_palette.getD [])).map
        (fun vibe => (dedupFirst (baseSegment m ++ genreSegment vibe)).take 5) ∧
    dominantEmotionCap (m.emotions.getD []) = "" ∧
    generate_playlist_name m = playlistNameFor m "" := by
  have he : emotionSegment m = [] := by
    unfold emotionSegment
    rw [h]
  refine ⟨he, ?_, ?_, ?_⟩
  · unfold get_tags_from_mood
    simp only [he, List.append_nil]
  · rw [h]
    rfl
  · unfold generate_playlist_name
    rw [h]
    rfl

/-- Witness for C10 at a positive-high profile with no emotions key. -/
theorem empty_emotions_guard_witness :
    emotionSegment (MoodAnalysis.mk (some "positive") (some "high") none none) = [] ∧
    get_tags_from_mood (MoodAnalysis.mk (some "positive") (some "high") none none) =
      (analyze_color_palette
          ((MoodAnalysis.mk (some "positive") (some "high") none none).color_palette.getD [])).map
        (fun vibe =>
          (dedupFirst (baseSegment (MoodAnalysis.mk (some "positive") (some "high") none none) ++
            genreSegment vibe)).take 5) ∧
    dominantEmotionCap
      ((MoodAnalysis.mk (some "positive") (some "high") none none).emotions.getD []) = "" ∧
    generate_playlist_name (MoodAnalysis.mk (some "positive") (some "high") none none) =
      playlistNameFor (MoodAnalysis.mk (some "positive") (some "high") none none) "" := by
  have h := empty_emotions_guard (MoodAnalysis.mk (some "positive") (some "high") none none) rfl
  exact ⟨h.1, h.2.1, h.2.2.1, h.2.2.2⟩

/-- C3 counterexample: with every one of the four relaxation attempts
answered successfully but with an empty result list, get_mood_playlist
returns the success shape with zero tracks and no error field, not the
claimed error shape. -/
theorem playlist_empty_results_counterexample :
    get_mood_playlist "cid" (fun i => some (JData.mk (some [])))
        (MoodAnalysis.mk none none none none) 10 =
      some (PlaylistResult.mk none "Chill Zone"
        (some ["chill", "ambient", "instrumental", "lounge"]) (some 0) [] none none, 4) := by
  decide

/-- C3 amended: when the client id is set, the tag mapping succeeds, no
attempt hits, and the final attempt yields no parseable data or data
without a results key, get_mood_playlist returns the error shape with an
empty track list after 4 requests; but a final response carrying an empty
result list instead produces the success shape with zero tracks. -/
theorem playlist_exhaustion_amended (cid : String) (oracle : Nat → Option JData)
    (m : MoodAnalysis) (limit : Nat) (tags : List String)
    (hcid : cid ≠ "")
    (h0 : isHit (oracle 0) = false) (h1 : isHit (oracle 1) = false)
    (h2 : isHit (oracle 2) = false)
    (h3 : oracle 3 = none ∨ ∃ j, oracle 3 = some j ∧ j.results = none)
    (htags : get_tags_from_mood m = some tags) :
    get_mood_playlist cid oracle m limit = some (fetchFailedResult m, 4) ∧
    (fetchFailedResult m).error = some "Failed to fetch tracks" ∧
    (fetchFailedResult m).tracks = [] := by
  refine ⟨?_, rfl, rfl⟩
  have htry : trySearch oracle = (oracle 3, 4) := by
    unfold trySearch
    rw [h0, h1, h2]
    simp
  unfold get_mood_playlist
  rw [if_neg hcid, htags, htry]
  rcases h3 with h3 | ⟨j, hj, hjr⟩
  · rw [h3]
  · rw [hj]
    show (match j.results with
      | none => some (fetchFailedResult m, 4)
      | some rs => some (successResult m tags rs, 4)) = some (fetchFailedResult m, 4)
    rw [hjr]

/-- Witness for C3 amended with every request failing at the network. -/
theorem playlist_exhaustion_amended_witness :
    get_mood_playlist "cid" (fun i => none) (MoodAnalysis.mk none none none none) 10 =
      some (fetchFailedResult (MoodAnalysis.mk none none none none), 4) ∧
    (fetchFailedResult (MoodAnalysis.mk none none none none)).error =
      some "Failed to fetch tracks" ∧
    (fetchFailedResult (MoodAnalysis.mk none none none none)).tracks = [] :=
  playlist_exhaustion_amended "cid" (fun i => none) (MoodAnalysis.mk none none none none) 10
    ["chill", "ambient", "instrumental", "lounge"] (by decide) rfl rfl rfl (Or.inl rfl)
    (by decide)

end Moodboard
